import Mathlib

/-!
Shallow embedding of `folium.plugins.geocoder` (src/folium/plugins/geocoder.py).

The module defines a single class `Geocoder(JSCSSMixin, MacroElement)` whose
`__init__` assembles an options bag via `folium.utilities.parse_options` and
whose `_template` (a Jinja template with no Jinja conditionals, only variable
holes) emits a script fragment.  The fragment is modelled at two levels:

* `Geocoder.renderStmts` : the sequence of statements the template emits,
  structured constructor-by-constructor after the template's blocks;
* `renderLines` / `Geocoder.render` : the fragment text itself, the template's
  lines with the holes (`this.get_name()`, `this.options|tojson`,
  `this._parent.get_name()`) substituted.

The runtime meaning of the in-fragment JavaScript conditionals (the guarded
`eval` statements on lines 42-47 and the provider-name selection on lines
121-128 of the source) is embedded by the functions `applyGuardedEval` and
`selectGeocoderName`, which operate on the serialized options bag exactly as
the emitted script does.
-/

/-- Values that can sit in the serialized options bag.  `bool`/`str` cover the
named options; `obj` covers `geocodeProviderOptions` (an opaque string-keyed
mapping per the spec); `func` is the runtime-only result of the fragment's
`eval` re-interpretation of a function-source string (it never appears in a
freshly constructed bag).  JSON string escaping is elided. -/
inductive JValue where
  | bool (b : Bool)
  | str (s : String)
  | func (src : String)
  | obj (entries : List (String × String))
deriving Repr, DecidableEq

/-- The options bag: an insertion-ordered key-value mapping, as a Python dict
restricted to the operations the source uses. -/
abbrev JOptions := List (String × JValue)

/-- JavaScript `key in obj` membership test used by the fragment's runtime
conditionals. -/
def jsHasKey (opts : JOptions) (k : String) : Bool :=
  (opts.lookup k).isSome

/-- Error taxonomy of the spec (section 7).  The source constructor never
raises any of these; the type exists so that the constructor's translation
into `Except` can state which errors are (not) produced. -/
inductive GeocoderError where
  | MissingDependency
  | InvalidOption
  | SerializationError
deriving Repr, DecidableEq

/-- The keyword arguments of `Geocoder.__init__` (source lines 158-164), with
the source's defaults.  `kwargs` carries the arbitrary extra key-value pairs
(`**kwargs`); Python forbids an extra pair from reusing a named parameter's
keyword, which is not re-imposed here. -/
structure GeocoderConfig where
  collapsed : Bool := false
  position : String := "topright"
  add_marker : Bool := true
  geocodeProvider : String := "nominatim"
  geocodeProviderOptions : Option (List (String × String)) := none
  serviceUrl : Option String := none
  geocodeFunction : Option String := none
  resultsHandlerFunction : Option String := none
  kwargs : JOptions := []
deriving Repr, DecidableEq

/-- The all-defaults configuration, `Construct({})` of the spec. -/
def defaultConfig : GeocoderConfig := {}

/-- Modelled from the spec: `folium.utilities.parse_options` is code of this
repository that is not under src/.  Per the spec it normalizes keyword
arguments into the options bag, omitting entries whose value is null/absent
(scenario A: "with null/absent optional fields omitted") and accepting
arbitrary extra key-value pairs passed through verbatim. -/
def parse_options (named : List (String × Option JValue)) (kwargs : JOptions) : JOptions :=
  named.filterMap (fun p => p.2.map (fun v => (p.1, v))) ++ kwargs

/-- The options bag assembled by `Geocoder.__init__` (source lines 167-178):
the seven named options in source order through `parse_options`, then
`geocodeProviderOptions` set afterwards when not `None`. -/
def mkOptions (cfg : GeocoderConfig) : JOptions :=
  let base := parse_options
    [("collapsed", some (JValue.bool cfg.collapsed)),
     ("position", some (JValue.str cfg.position)),
     ("defaultMarkGeocode", some (JValue.bool cfg.add_marker)),
     ("geocodeProvider", some (JValue.str cfg.geocodeProvider)),
     ("serviceUrl", cfg.serviceUrl.map JValue.str),
     ("geocodeFunction", cfg.geocodeFunction.map JValue.str),
     ("resultsHandlerFunction", cfg.resultsHandlerFunction.map JValue.str)]
    cfg.kwargs
  match cfg.geocodeProviderOptions with
  | none => base
  | some gpo => base ++ [("geocodeProviderOptions", JValue.obj gpo)]

/-- A constructed `Geocoder` control: its unique instance identifier (the
`get_name()` of the branca `MacroElement`, fixed at construction) and its
normalized options bag. -/
structure Geocoder where
  name : String
  options : JOptions
deriving Repr, DecidableEq

/-- The pure content of `Geocoder.__init__`: bag assembly plus the identifier
(identifier generation itself lives in the branca base class, outside src/;
it is taken as an input here). -/
def Geocoder.build (name : String) (cfg : GeocoderConfig) : Geocoder :=
  { name := name, options := mkOptions cfg }

/-- Translation of `Geocoder.__init__` (source lines 158-178) into the
error-signalling monad of the spec's taxonomy.  The source body contains no
validation and no raise statement, so the translation returns `Except.ok` on
every input. -/
def Geocoder.init (name : String) (cfg : GeocoderConfig) :
    Except GeocoderError Geocoder :=
  Except.ok (Geocoder.build name cfg)

/-- Runtime effect of one JavaScript property assignment
`opts[k] = f(opts[k])` on the serialized bag: every entry under key `k` is
rewritten (lookup semantics read the first). -/
def setKeyVal (opts : JOptions) (k : String) (f : JValue → JValue) : JOptions :=
  opts.map (fun p => if p.1 = k then (p.1, f p.2) else p)

/-- Runtime effect of the fragment's `eval("opts[k] = " + opts[k])`: the
function-source string stored under `k` is re-interpreted as a callable. -/
def evalAsCode : JValue → JValue
  | JValue.str s => JValue.func s
  | v => v

/-- Runtime meaning of one guarded eval block of the fragment (template lines
42-44 and 45-47): `if (k in opts) { eval("opts[k] = " + opts[k]); }`. -/
def applyGuardedEval (opts : JOptions) (k : String) : JOptions :=
  if jsHasKey opts k then setKeyVal opts k evalAsCode else opts

/-- Runtime state of the options object after the fragment's two guarded eval
blocks, in emission order: `geocodeFunction` first, then
`resultsHandlerFunction`. -/
def runEvalSteps (opts : JOptions) : JOptions :=
  applyGuardedEval (applyGuardedEval opts "geocodeFunction") "resultsHandlerFunction"

/-- Runtime meaning of the provider-name selection (template lines 121-128):
`if ('serviceUrl' in opts) name = 'custom_<id>'; else name =
opts["geocodeProvider"];`.  Returns `none` when the else-branch reads a
missing or non-string `geocodeProvider` (the JavaScript would produce a
non-string registry key there). -/
def selectGeocoderName (opts : JOptions) (instName : String) : Option String :=
  if jsHasKey opts "serviceUrl" then some ("custom_" ++ instName)
  else
    match opts.lookup "geocodeProvider" with
    | some (JValue.str s) => some s
    | _ => none

/-- The statements the template emits, one constructor per block of the
template text.  The template has no Jinja conditionals, so every fragment
consists of the same eight statements with the holes filled. -/
inductive Stmt where
  | declareOpts (varName : String) (opts : JOptions)
  | guardedEval (varName : String) (key : String)
  | declareCustomTemplate (varName : String) (instName : String)
  | registerCustom (instName : String)
  | selectName (instName : String)
  | instantiate (instName : String)
  | attachControl (parent : String) (event : String) (zoom : Nat)
deriving Repr, DecidableEq

/-- Statement-level rendering of `Geocoder._template` (source lines 37-143):
declare the options object, the two guarded evals, the custom-provider
template object, its (unconditional) registration in `L.Control.Geocoder`,
the provider-name selection, the instantiation, and the attachment with the
`markgeocode` subscription at zoom 11. -/
def Geocoder.renderStmts (g : Geocoder) (parent : String) : List Stmt :=
  let ov := "geocoderOpts_" ++ g.name
  [Stmt.declareOpts ov g.options,
   Stmt.guardedEval ov "geocodeFunction",
   Stmt.guardedEval ov "resultsHandlerFunction",
   Stmt.declareCustomTemplate ("customGeocoderTemplate_" ++ g.name) g.name,
   Stmt.registerCustom g.name,
   Stmt.selectName g.name,
   Stmt.instantiate g.name,
   Stmt.attachControl parent "markgeocode" 11]

/-- Serialization of one bag value (the `tojson` filter), string escaping
elided; a `func` value never occurs in a freshly constructed bag. -/
def JValue.toJson : JValue → String
  | JValue.bool true => "true"
  | JValue.bool false => "false"
  | JValue.str s => "\"" ++ s ++ "\""
  | JValue.func s => "\"" ++ s ++ "\""
  | JValue.obj es =>
      "\x7b" ++
        String.intercalate ", "
          (es.map (fun p => "\"" ++ p.1 ++ "\": \"" ++ p.2 ++ "\"")) ++
      "\x7d"

/-- Serialization of the whole options bag, `{{ this.options|tojson }}` of the
template (template line 41), keys in insertion order. -/
def optionsToJson (opts : JOptions) : String :=
  "\x7b" ++
    String.intercalate ", "
      (opts.map (fun p => "\"" ++ p.1 ++ "\": " ++ p.2.toJson)) ++
  "\x7d"

/-- The fragment text line by line: the template body (source lines 41-139)
with `this.get_name()` replaced by the instance identifier,
`this.options|tojson` by the serialized bag and `this._parent.get_name()` by
the parent handle. -/
def renderLines (g : Geocoder) (parent : String) : List String :=
  let n := g.name
  let ov := "geocoderOpts_" ++ n
  ["var " ++ ov ++ " = " ++ optionsToJson g.options ++ ";",
   "if (\x27geocodeFunction\x27 in " ++ ov ++ ") \x7b",
   "    eval(\"" ++ ov ++ "[\x27geocodeFunction\x27] = \" + " ++ ov ++ "[\x27geocodeFunction\x27]);",
   "\x7d",
   "if (\x27resultsHandlerFunction\x27 in " ++ ov ++ ") \x7b",
   "    eval(\"" ++ ov ++ "[\x27resultsHandlerFunction\x27] = \" + " ++ ov ++ "[\x27resultsHandlerFunction\x27]);",
   "\x7d",
   "var customGeocoderTemplate_" ++ n ++ " = \x7b",
   "    class: L.Class.extend(\x7b",
   "        options: \x7b",
   "            serviceUrl: " ++ ov ++ "[\x27serviceUrl\x27],",
   "            geocodingQueryParams:  " ++ ov ++ "[\x27geocodingQueryParams\x27] || \x7b\x7d,",
   "            reverseQueryParams: " ++ ov ++ "[\x27reverseQueryParams\x27] || \x7b\x7d,",
   "        \x7d,",
   "        initialize: function(options) \x7b",
   "            L.Util.setOptions(this, options || \x7b\x7d);",
   "        \x7d,",
   "        geocode: " ++ ov ++ "[\x27geocodeFunction\x27],",
   "        suggest: function(query,cb,context) \x7b",
   "            return this.geocode(query, cb, context);",
   "        \x7d,",
   "        // placeholder: not used by folium.plugin.Geocoder",
   "        reverse: function(location, scale, cb, context) \x7b",
   "          var params = L.extend(",
   "            \x7b",
   "              //defaultParam: defaultParamValue",
   "            \x7d,",
   "            this.options.reverseQueryParams",
   "          );",
   "          this.getJSON(",
   "            this.options.serviceUrl + \x27reverse\x27,",
   "            params,",
   "            L.bind(function(data) \x7b",
   "              cb.call(context, this._resultsHandler(data));",
   "            \x7d, this)",
   "          );",
   "        \x7d,",
   "        _resultsHandler: function(data) \x7b",
   "            if (\x27resultsHandlerFunction\x27 in " ++ ov ++ ") \x7b",
   "                return " ++ ov ++ "[\x27resultsHandlerFunction\x27](data);",
   "            \x7d",
   "            return data;",
   "        \x7d,",
   "        getJSON: function(url, params, callback) \x7b",
   "            var xmlHttp = new XMLHttpRequest();",
   "            xmlHttp.onreadystatechange = function () \x7b",
   "                if (xmlHttp.readyState !== 4)\x7b",
   "                    return;",
   "                \x7d",
   "                if (xmlHttp.status !== 200 && xmlHttp.status !== 304)\x7b",
   "                    callback(\x27\x27);",
   "                    return;",
   "                \x7d",
   "                callback(JSON.parse(xmlHttp.response));",
   "            \x7d;",
   "            xmlHttp.open(\x27GET\x27, url + L.Util.getParamString(params), true);",
   "            xmlHttp.setRequestHeader(\x27Accept\x27, \x27application/json\x27);",
   "            xmlHttp.send(null);",
   "        \x7d",
   "    \x7d),",
   "    factory: function(options) \x7b",
   "        return new L.Control.Geocoder.Custom_" ++ n ++ "(options);",
   "    \x7d,",
   "\x7d",
   "L.Util.extend(L.Control.Geocoder, \x7b",
   "    Custom_" ++ n ++ ": customGeocoderTemplate_" ++ n ++ ".class,",
   "    custom_" ++ n ++ ": customGeocoderTemplate_" ++ n ++ ".factory",
   "\x7d);",
   "// use lowercase for geocoder name",
   "var geocoderName_" ++ n ++ ";",
   "if (\x27serviceUrl\x27 in " ++ ov ++ ") \x7b",
   "    geocoderName_" ++ n ++ " = \x27custom_" ++ n ++ "\x27;",
   "\x7d",
   "else \x7b",
   "    geocoderName_" ++ n ++ " = " ++ ov ++ "[\"geocodeProvider\"];",
   "\x7d",
   "var customGeocoder_" ++ n ++ " = L.Control.Geocoder[ geocoderName_" ++ n ++ " ](",
   "    " ++ ov ++ "[\x27geocodeProviderOptions\x27]",
   ");",
   ov ++ "[\"geocoder\"] = customGeocoder_" ++ n ++ ";",
   "L.Control.geocoder(",
   "    " ++ ov,
   ").on(\x27markgeocode\x27, function(e) \x7b",
   "    " ++ parent ++ ".setView(e.geocode.center, 11);",
   "\x7d).addTo(" ++ parent ++ ");"]

/-- Rendering as explicit state passing: the fragment text together with the
post-render control.  The template macro only reads `this.options`,
`this.get_name()` and `this._parent.get_name()`; it mutates nothing, so the
control comes back unchanged. -/
def Geocoder.render (g : Geocoder) (parent : String) : String × Geocoder :=
  (String.intercalate "\n" (renderLines g parent), g)

/-- Unfolding of `setKeyVal` over a cons cell. -/
theorem setKeyVal_cons (a : String) (v : JValue) (t : JOptions) (k : String)
    (f : JValue → JValue) :
    setKeyVal ((a, v) :: t) k f =
      (if a = k then (a, f v) else (a, v)) :: setKeyVal t k f := rfl

/-- Looking up the assigned key after `setKeyVal` sees the rewritten value. -/
theorem lookup_setKeyVal_self (opts : JOptions) (k : String) (f : JValue → JValue) :
    (setKeyVal opts k f).lookup k = (opts.lookup k).map f := by
  induction opts with
  | nil => rfl
  | cons p t ih =>
    obtain ⟨a, v⟩ := p
    rw [setKeyVal_cons]
    by_cases h : a = k
    · subst h
      rw [if_pos rfl]
      simp [List.lookup]
    · rw [if_neg h]
      have hka : (k == a) = false := beq_eq_false_iff_ne.mpr (Ne.symm h)
      simp [List.lookup, hka, ih]

/-- Looking up any other key is unaffected by `setKeyVal`. -/
theorem lookup_setKeyVal_of_ne (opts : JOptions) (k kset : String) (f : JValue → JValue)
    (hne : k ≠ kset) : (setKeyVal opts kset f).lookup k = opts.lookup k := by
  induction opts with
  | nil => rfl
  | cons p t ih =>
    obtain ⟨a, v⟩ := p
    rw [setKeyVal_cons]
    by_cases h : a = kset
    · rw [if_pos h]
      have hka : (k == a) = false := beq_eq_false_iff_ne.mpr (fun hh => hne (hh.trans h))
      simp [List.lookup, hka, ih]
    · rw [if_neg h]
      cases hka : k == a with
      | true => simp [List.lookup, hka]
      | false => simpa [List.lookup, hka] using ih

/-- The bag built by the constructor always stores the supplied
`geocodeProvider` string: the entry sits in the head segment of the bag,
before any optional, extra or provider-options entry. -/
theorem mkOptions_lookup_geocodeProvider (cfg : GeocoderConfig) :
    (mkOptions cfg).lookup "geocodeProvider" = some (JValue.str cfg.geocodeProvider) := by
  cases hg : cfg.geocodeProviderOptions <;>
    simp [mkOptions, parse_options, hg, List.lookup]

/-- A guarded eval on one key leaves every other key of the bag unchanged. -/
theorem lookup_applyGuardedEval_of_ne (opts : JOptions) (k kother : String)
    (hne : k ≠ kother) : (applyGuardedEval opts kother).lookup k = opts.lookup k := by
  unfold applyGuardedEval
  split
  · exact lookup_setKeyVal_of_ne opts k kother evalAsCode hne
  · rfl

/-- A guarded eval on a key maps the value stored there through `evalAsCode`
when the key is present and does nothing when it is absent; both cases are
the statement that the stored option is mapped through `evalAsCode`. -/
theorem lookup_applyGuardedEval_self (opts : JOptions) (k : String) :
    (applyGuardedEval opts k).lookup k = (opts.lookup k).map evalAsCode := by
  unfold applyGuardedEval
  by_cases h : jsHasKey opts k
  · rw [if_pos h, lookup_setKeyVal_self]
  · rw [if_neg h]
    have hnone : opts.lookup k = none := by
      unfold jsHasKey at h
      exact Option.not_isSome_iff_eq_none.mp (by simpa using h)
    rw [hnone]
    rfl

/-- After both guarded eval blocks, the `geocodeFunction` slot holds the
`evalAsCode` image of what the bag stored there. -/
theorem runEvalSteps_lookup_geocodeFunction (opts : JOptions) :
    (runEvalSteps opts).lookup "geocodeFunction" =
      (opts.lookup "geocodeFunction").map evalAsCode := by
  unfold runEvalSteps
  rw [lookup_applyGuardedEval_of_ne _ _ _ (by decide), lookup_applyGuardedEval_self]

/-- After both guarded eval blocks, the `resultsHandlerFunction` slot holds
the `evalAsCode` image of what the bag stored there. -/
theorem runEvalSteps_lookup_resultsHandlerFunction (opts : JOptions) :
    (runEvalSteps opts).lookup "resultsHandlerFunction" =
      (opts.lookup "resultsHandlerFunction").map evalAsCode := by
  unfold runEvalSteps
  rw [lookup_applyGuardedEval_self, lookup_applyGuardedEval_of_ne _ _ _ (by decide)]

/-- When the configuration supplies a service URL, the bag stores it under
`serviceUrl` (the entry precedes every extra or provider-options entry). -/
theorem mkOptions_lookup_serviceUrl (cfg : GeocoderConfig) (u : String)
    (h : cfg.serviceUrl = some u) :
    (mkOptions cfg).lookup "serviceUrl" = some (JValue.str u) := by
  cases hg : cfg.geocodeProviderOptions <;>
    simp [mkOptions, parse_options, hg, h, List.lookup]

/-- C1: for every configuration, the fragment's provider-name selection
(template lines 121-128) picks the custom registry key, the string
`custom_` followed by the instance identifier, exactly when the bag
contains a `serviceUrl` key; otherwise it picks exactly the string value
stored in the bag under `geocodeProvider`, which is the supplied provider
string. -/
theorem C1_provider_name_selection (name : String) (cfg : GeocoderConfig) :
    (jsHasKey (Geocoder.build name cfg).options "serviceUrl" = true →
      selectGeocoderName (Geocoder.build name cfg).options name =
        some ("custom_" ++ name)) ∧
    (jsHasKey (Geocoder.build name cfg).options "serviceUrl" = false →
      (Geocoder.build name cfg).options.lookup "geocodeProvider" =
        some (JValue.str cfg.geocodeProvider) ∧
      selectGeocoderName (Geocoder.build name cfg).options name =
        some cfg.geocodeProvider) := by
  constructor
  · intro h
    simp [selectGeocoderName, h]
  · intro h
    have h2 : jsHasKey (mkOptions cfg) "serviceUrl" = false := h
    refine ⟨mkOptions_lookup_geocodeProvider cfg, ?_⟩
    show selectGeocoderName (mkOptions cfg) name = some cfg.geocodeProvider
    simp [selectGeocoderName, h2, mkOptions_lookup_geocodeProvider]

/-- Witness for C1: with all defaults the bag has no `serviceUrl` key and the
selection picks the stored provider string, "nominatim". -/
theorem C1_provider_name_selection_witness :
    selectGeocoderName (Geocoder.build "geocoder_1" defaultConfig).options "geocoder_1" =
      some "nominatim" :=
  ((C1_provider_name_selection "geocoder_1" defaultConfig).2 (by decide)).2

/-- C2 counterexample: constructing with `serviceUrl` set and
`geocodeFunction` omitted raises nothing: the translated constructor
returns the control (no `MissingDependency`), and rendering still emits the
full eight-statement fragment. -/
theorem C2_counterexample :
    Geocoder.init "geocoder_1" { serviceUrl := some "https://x/geocode" } =
      Except.ok (Geocoder.build "geocoder_1" { serviceUrl := some "https://x/geocode" }) ∧
    ((Geocoder.build "geocoder_1"
        { serviceUrl := some "https://x/geocode" }).renderStmts "map_1").length = 8 :=
  ⟨rfl, rfl⟩

/-- C2 amended: construction with a service URL and no geocode function
succeeds with no error; the bag has no `geocodeFunction` entry, the custom
provider name is still selected, and the fragment is emitted in full. -/
theorem C2_no_missing_dependency (name url parent : String) :
    Geocoder.init name { serviceUrl := some url } =
      Except.ok (Geocoder.build name { serviceUrl := some url }) ∧
    (Geocoder.build name { serviceUrl := some url }).options.lookup "geocodeFunction" =
      none ∧
    selectGeocoderName (Geocoder.build name { serviceUrl := some url }).options name =
      some ("custom_" ++ name) ∧
    ((Geocoder.build name { serviceUrl := some url }).renderStmts parent).length = 8 := by
  refine ⟨rfl, ?_, ?_, rfl⟩
  · simp [Geocoder.build, mkOptions, parse_options, List.lookup]
  · have h : jsHasKey (mkOptions { serviceUrl := some url }) "serviceUrl" = true := by
      unfold jsHasKey
      rw [mkOptions_lookup_serviceUrl _ url rfl]
      rfl
    simp [selectGeocoderName, Geocoder.build, h]

/-- Witness for C2's amended statement at a concrete configuration. -/
theorem C2_no_missing_dependency_witness :
    Geocoder.init "geocoder_2" { serviceUrl := some "https://y/geocode" } =
      Except.ok (Geocoder.build "geocoder_2" { serviceUrl := some "https://y/geocode" }) ∧
    (Geocoder.build "geocoder_2"
        { serviceUrl := some "https://y/geocode" }).options.lookup "geocodeFunction" =
      none ∧
    selectGeocoderName (Geocoder.build "geocoder_2"
        { serviceUrl := some "https://y/geocode" }).options "geocoder_2" =
      some ("custom_" ++ "geocoder_2") ∧
    ((Geocoder.build "geocoder_2"
        { serviceUrl := some "https://y/geocode" }).renderStmts "map_2").length = 8 :=
  C2_no_missing_dependency "geocoder_2" "https://y/geocode" "map_2"

/-- C3 counterexample: with the default configuration the bag has no
`serviceUrl` key, yet the rendered fragment still contains the registration
of the custom provider class under the identifier-derived name. -/
theorem C3_counterexample :
    jsHasKey (Geocoder.build "geocoder_1" defaultConfig).options "serviceUrl" = false ∧
    Stmt.registerCustom "geocoder_1" ∈
      (Geocoder.build "geocoder_1" defaultConfig).renderStmts "map_1" :=
  ⟨by decide, by decide⟩

/-- C3 amended: the custom provider class registration appears in the
fragment for every configuration, unconditionally; only the provider-name
selection depends on `serviceUrl`, picking the identifier-derived custom
name exactly when that key is present in the bag. -/
theorem C3_registration_unconditional (name : String) (cfg : GeocoderConfig)
    (parent : String) :
    Stmt.registerCustom name ∈ (Geocoder.build name cfg).renderStmts parent ∧
    (jsHasKey (Geocoder.build name cfg).options "serviceUrl" = true →
      selectGeocoderName (Geocoder.build name cfg).options name =
        some ("custom_" ++ name)) := by
  constructor
  · simp [Geocoder.renderStmts, Geocoder.build]
  · intro h
    simp [selectGeocoderName, h]

/-- Witness for C3's amended statement at a concrete configuration. -/
theorem C3_registration_unconditional_witness :
    Stmt.registerCustom "geocoder_3" ∈
      (Geocoder.build "geocoder_3" defaultConfig).renderStmts "map_1" :=
  (C3_registration_unconditional "geocoder_3" defaultConfig "map_1").1

/-- C4: constructing with all defaults and rendering declares exactly the
four-entry options object `collapsed: false, position: "topright",
defaultMarkGeocode: true, geocodeProvider: "nominatim"`; every null
optional (serviceUrl, geocodeFunction, resultsHandlerFunction,
geocodeProviderOptions) is omitted from the bag. -/
theorem C4_default_options (name parent : String) :
    Geocoder.init name defaultConfig = Except.ok (Geocoder.build name defaultConfig) ∧
    (Geocoder.build name defaultConfig).options =
      [("collapsed", JValue.bool false), ("position", JValue.str "topright"),
       ("defaultMarkGeocode", JValue.bool true),
       ("geocodeProvider", JValue.str "nominatim")] ∧
    ((Geocoder.build name defaultConfig).renderStmts parent).head? =
      some (Stmt.declareOpts ("geocoderOpts_" ++ name)
        [("collapsed", JValue.bool false), ("position", JValue.str "topright"),
         ("defaultMarkGeocode", JValue.bool true),
         ("geocodeProvider", JValue.str "nominatim")]) :=
  ⟨rfl, rfl, rfl⟩

/-- Witness for C4 at a concrete identifier and parent. -/
theorem C4_default_options_witness :
    Geocoder.init "geocoder_1" defaultConfig =
      Except.ok (Geocoder.build "geocoder_1" defaultConfig) ∧
    (Geocoder.build "geocoder_1" defaultConfig).options =
      [("collapsed", JValue.bool false), ("position", JValue.str "topright"),
       ("defaultMarkGeocode", JValue.bool true),
       ("geocodeProvider", JValue.str "nominatim")] ∧
    ((Geocoder.build "geocoder_1" defaultConfig).renderStmts "map_1").head? =
      some (Stmt.declareOpts ("geocoderOpts_" ++ "geocoder_1")
        [("collapsed", JValue.bool false), ("position", JValue.str "topright"),
         ("defaultMarkGeocode", JValue.bool true),
         ("geocodeProvider", JValue.str "nominatim")]) :=
  C4_default_options "geocoder_1" "map_1"

/-- C5: the fragment always contains the two guarded eval instructions, and
their runtime effect re-interprets the string stored under
`geocodeFunction` (resp. `resultsHandlerFunction`) into a callable exactly
when the bag contains that entry; an absent entry stays absent. -/
theorem C5_eval_iff_present (g : Geocoder) (parent : String) :
    Stmt.guardedEval ("geocoderOpts_" ++ g.name) "geocodeFunction" ∈
      g.renderStmts parent ∧
    Stmt.guardedEval ("geocoderOpts_" ++ g.name) "resultsHandlerFunction" ∈
      g.renderStmts parent ∧
    (∀ s, g.options.lookup "geocodeFunction" = some (JValue.str s) →
      (runEvalSteps g.options).lookup "geocodeFunction" = some (JValue.func s)) ∧
    (g.options.lookup "geocodeFunction" = none →
      (runEvalSteps g.options).lookup "geocodeFunction" = none) ∧
    (∀ s, g.options.lookup "resultsHandlerFunction" = some (JValue.str s) →
      (runEvalSteps g.options).lookup "resultsHandlerFunction" =
        some (JValue.func s)) ∧
    (g.options.lookup "resultsHandlerFunction" = none →
      (runEvalSteps g.options).lookup "resultsHandlerFunction" = none) := by
  refine ⟨by simp [Geocoder.renderStmts], by simp [Geocoder.renderStmts], ?_, ?_, ?_, ?_⟩
  · intro s h
    simp [runEvalSteps_lookup_geocodeFunction, h, evalAsCode]
  · intro h
    simp [runEvalSteps_lookup_geocodeFunction, h]
  · intro s h
    simp [runEvalSteps_lookup_resultsHandlerFunction, h, evalAsCode]
  · intro h
    simp [runEvalSteps_lookup_resultsHandlerFunction, h]

/-- Witness for C5: a supplied geocode-function source string is rewritten
to a callable by the guarded eval at a concrete configuration. -/
theorem C5_eval_iff_present_witness :
    (runEvalSteps (Geocoder.build "geocoder_1"
        { geocodeFunction := some "gfSrc" }).options).lookup "geocodeFunction" =
      some (JValue.func "gfSrc") :=
  (C5_eval_iff_present (Geocoder.build "geocoder_1" { geocodeFunction := some "gfSrc" })
      "map_1").2.2.1 "gfSrc" (by decide)

/-- C6 counterexample: constructing with position "center" (outside the
accepted corner set) raises nothing: the translated constructor returns the
control with the value passed through to the bag, with no `InvalidOption`
error. -/
theorem C6_counterexample :
    Geocoder.init "geocoder_1" { position := "center" } =
      Except.ok (Geocoder.build "geocoder_1" { position := "center" }) ∧
    (Geocoder.build "geocoder_1" { position := "center" }).options.lookup "position" =
      some (JValue.str "center") :=
  ⟨rfl, by decide⟩

/-- C6 amended: any position string, "center" included, is accepted and
passed through into the options bag unvalidated; construction never raises
`InvalidOption`. -/
theorem C6_position_passthrough (name pos : String) :
    Geocoder.init name { position := pos } =
      Except.ok (Geocoder.build name { position := pos }) ∧
    (Geocoder.build name { position := pos }).options.lookup "position" =
      some (JValue.str pos) := by
  refine ⟨rfl, ?_⟩
  simp [Geocoder.build, mkOptions, parse_options, List.lookup]

/-- Witness for C6's amended statement at the boundary input "center". -/
theorem C6_position_passthrough_witness :
    Geocoder.init "geocoder_1" { position := "center" } =
      Except.ok (Geocoder.build "geocoder_1" { position := "center" }) ∧
    (Geocoder.build "geocoder_1" { position := "center" }).options.lookup "position" =
      some (JValue.str "center") :=
  C6_position_passthrough "geocoder_1" "center"

/-- C7: the extra key-value pairs supplied at construction appear in the
normalized bag verbatim: the supplied pair list is an order-preserving
sublist of the bag (same keys mapped to the same values, unmodified), so in
particular every supplied pair is an entry of the bag. -/
theorem C7_kwargs_passthrough (name : String) (cfg : GeocoderConfig) :
    List.Sublist cfg.kwargs (Geocoder.build name cfg).options ∧
    ∀ p ∈ cfg.kwargs, p ∈ (Geocoder.build name cfg).options := by
  have hsub : List.Sublist cfg.kwargs (mkOptions cfg) := by
    cases hg : cfg.geocodeProviderOptions with
    | none =>
      simp only [mkOptions, parse_options, hg]
      exact List.sublist_append_right _ _
    | some gpo =>
      simp only [mkOptions, parse_options, hg]
      exact (List.sublist_append_right _ _).trans (List.sublist_append_left _ _)
  exact ⟨hsub, fun p hp => hsub.subset hp⟩

/-- Witness for C7: a concrete extra pair ends up in the bag verbatim. -/
theorem C7_kwargs_passthrough_witness :
    ("placeholder", JValue.str "Search") ∈
      (Geocoder.build "geocoder_1"
        { kwargs := [("placeholder", JValue.str "Search")] }).options :=
  (C7_kwargs_passthrough "geocoder_1"
      { kwargs := [("placeholder", JValue.str "Search")] }).2
    ("placeholder", JValue.str "Search") (by decide)

/-- C8: rendering is idempotent: rendering the control returned by a first
render yields the same fragment text as the first render, and rendering
leaves the control (its bag and unique name, both fixed at construction)
unchanged. -/
theorem C8_render_idempotent (g : Geocoder) (parent : String) :
    ((g.render parent).2.render parent).1 = (g.render parent).1 ∧
    (g.render parent).2 = g :=
  ⟨rfl, rfl⟩

/-- Witness for C8 at a concrete control and parent. -/
theorem C8_render_idempotent_witness :
    (((Geocoder.build "geocoder_1" defaultConfig).render "map_1").2.render "map_1").1 =
      ((Geocoder.build "geocoder_1" defaultConfig).render "map_1").1 ∧
    ((Geocoder.build "geocoder_1" defaultConfig).render "map_1").2 =
      Geocoder.build "geocoder_1" defaultConfig :=
  C8_render_idempotent (Geocoder.build "geocoder_1" defaultConfig) "map_1"

/-- C9: every fragment subscribes the control's "markgeocode" event to a
handler that recenters the parent map at the fixed zoom 11: the attachment
statement carries that event and zoom, and the fragment text contains the
parent's `setView(e.geocode.center, 11)` call line. -/
theorem C9_markgeocode_subscription (g : Geocoder) (parent : String) :
    Stmt.attachControl parent "markgeocode" 11 ∈ g.renderStmts parent ∧
    ("    " ++ parent ++ ".setView(e.geocode.center, 11);") ∈ renderLines g parent := by
  constructor
  · simp [Geocoder.renderStmts]
  · simp [renderLines]

/-- Witness for C9 at a concrete control and parent. -/
theorem C9_markgeocode_subscription_witness :
    Stmt.attachControl "map_1" "markgeocode" 11 ∈
      (Geocoder.build "geocoder_1" defaultConfig).renderStmts "map_1" :=
  (C9_markgeocode_subscription (Geocoder.build "geocoder_1" defaultConfig) "map_1").1

/-- C10: the `geocodeProvider` key is always present in the bag, holding the
supplied provider string (default "nominatim", non-null, never removed),
also when `serviceUrl` is supplied; supplying `serviceUrl` only makes the
name selection bypass it, while the serialized entry stays in the bag. -/
theorem C10_geocodeProvider_always_present (name : String) (cfg : GeocoderConfig) :
    (Geocoder.build name cfg).options.lookup "geocodeProvider" =
      some (JValue.str cfg.geocodeProvider) ∧
    (∀ u, cfg.serviceUrl = some u →
      (Geocoder.build name cfg).options.lookup "serviceUrl" = some (JValue.str u) ∧
      selectGeocoderName (Geocoder.build name cfg).options name =
        some ("custom_" ++ name)) := by
  refine ⟨mkOptions_lookup_geocodeProvider cfg, ?_⟩
  intro u hu
  have hs : (mkOptions cfg).lookup "serviceUrl" = some (JValue.str u) :=
    mkOptions_lookup_serviceUrl cfg u hu
  have hk : jsHasKey (mkOptions cfg) "serviceUrl" = true := by
    unfold jsHasKey
    rw [hs]
    rfl
  exact ⟨hs, by simp [selectGeocoderName, Geocoder.build, hk]⟩

/-- Witness for C10 at a configuration that supplies a service URL. -/
theorem C10_geocodeProvider_always_present_witness :
    (Geocoder.build "geocoder_1"
        { serviceUrl := some "https://x/geocode" }).options.lookup "geocodeProvider" =
      some (JValue.str "nominatim") ∧
    selectGeocoderName (Geocoder.build "geocoder_1"
        { serviceUrl := some "https://x/geocode" }).options "geocoder_1" =
      some ("custom_" ++ "geocoder_1") :=
  ⟨(C10_geocodeProvider_always_present "geocoder_1"
      { serviceUrl := some "https://x/geocode" }).1,
   ((C10_geocodeProvider_always_present "geocoder_1"
      { serviceUrl := some "https://x/geocode" }).2 "https://x/geocode" rfl).2⟩
